import Mathlib

/-!
Verification of the resilient event-delivery and streaming core of the
`rovn` TypeScript SDK (`packages/sdk-ts/src/index.ts`), shallowly embedded
in Lean 4.  Pure helpers of the source (`isRetryable`, the backoff formula,
the queue overflow policy, the guardrail lookup) become Lean functions;
the stateful drain loop, the scheduling guard and the SSE reconnect loop
become explicit step functions on state records, with Transport outcomes
supplied by an oracle list.
-/

namespace Rovn

/-- Embeds `QueuedEvent` (`index.ts`): `{ event, data, retries }`.  The
payload `data` is never inspected by the queue machinery, so it is carried
as an opaque string. -/
structure QueuedEvent where
  event : String
  data : String
  retries : Nat
deriving DecidableEq, Repr

/-- Failures thrown by `request`: a typed `RovnError` carrying its HTTP
`statusCode`, or any untyped network-level error (fetch `TypeError`,
abort, ...). -/
inductive TransportError where
  | rovnError (statusCode : Nat)
  | networkError
deriving DecidableEq, Repr

/-- Outcome of one Transport (`request`) call: resolved payload, or a
thrown error. -/
inductive TransportResult where
  | success (payload : String)
  | failure (e : TransportError)
deriving DecidableEq, Repr

/-- Embeds `isRetryable` (`index.ts` lines 243-250):
`err instanceof RovnError` → `statusCode >= 500 || statusCode === 429`;
anything else (network errors, aborts) → retryable. -/
def isRetryable : TransportError → Bool
  | .rovnError statusCode => decide (statusCode ≥ 500) || decide (statusCode = 429)
  | .networkError => true

/-- `MAX_QUEUE_SIZE` from `index.ts`. -/
def MAX_QUEUE_SIZE : Nat := 10000

/-- `MAX_BACKOFF_MS` from `index.ts`. -/
def MAX_BACKOFF_MS : Nat := 30000

/-- `GUARDRAIL_CACHE_TTL_MS` from `index.ts`. -/
def GUARDRAIL_CACHE_TTL_MS : Nat := 60000

/-- The backoff computation of `drainQueue`:
`Math.min(1000 * Math.pow(2, item.retries), MAX_BACKOFF_MS)`. -/
def backoffDelay (retries : Nat) : Nat :=
  min (1000 * 2 ^ retries) MAX_BACKOFF_MS

/-- Embeds `enqueue` (`index.ts` lines 254-261): when the queue already
holds `MAX_QUEUE_SIZE` items, `shift()` drops the oldest (front) element,
then the new event is `push`ed with `retries: 0`.  (The `scheduleFlush`
side effect is modelled separately in `workerStep`.) -/
def enqueue (q : List QueuedEvent) (event : String) (data : String) :
    List QueuedEvent :=
  (if q.length ≥ MAX_QUEUE_SIZE then q.tail else q) ++ [⟨event, data, 0⟩]

/-- `item.retries++` on a retryable failure. -/
def bumpRetries (item : QueuedEvent) : QueuedEvent :=
  { item with retries := item.retries + 1 }

/-- Observable effect of one delivery attempt inside `drainQueue`; each
constructor corresponds to exactly one Transport call. -/
inductive DrainEvent where
  | sent (item : QueuedEvent)
  | dropped (item : QueuedEvent)
  | delayed (item : QueuedEvent) (delayMs : Nat)
deriving DecidableEq, Repr

/-- One iteration of the `while` body of `drainQueue` (`index.ts` lines
281-298) applied to the front item: success → `shift()`; retryable
failure → compute the delay from the current `retries`, increment
`retries` in place, keep the item at the front; terminal failure →
`shift()` (drop). -/
def drainStep (item : QueuedEvent) (rest : List QueuedEvent)
    (r : TransportResult) : List QueuedEvent × DrainEvent :=
  match r with
  | .success _ => (rest, .sent item)
  | .failure e =>
    if isRetryable e then
      (bumpRetries item :: rest, .delayed item (backoffDelay item.retries))
    else
      (rest, .dropped item)

/-- The `drainQueue` loop, with Transport outcomes supplied by the oracle
list `oracle` (one entry per attempted call, consumed in order).  The loop
stops when the queue is empty; an exhausted oracle cuts the run off
mid-drain (the suspension point before the next call). -/
def drainQueue : List QueuedEvent → List TransportResult →
    List QueuedEvent × List DrainEvent
  | [], _ => ([], [])
  | q, [] => (q, [])
  | item :: rest, r :: rs =>
    let s := drainStep item rest r
    let f := drainQueue s.1 rs
    (f.1, s.2 :: f.2)

/-- Enqueue a whole list of `(event, data)` pairs in order. -/
def enqueueAll (q : List QueuedEvent) (items : List (String × String)) :
    List QueuedEvent :=
  items.foldl (fun acc i => enqueue acc i.1 i.2) q

-- ==================== Basic lemmas about enqueue ====================

theorem enqueue_length (q : List QueuedEvent) (ev d : String)
    (h : q.length ≤ MAX_QUEUE_SIZE) :
    (enqueue q ev d).length = min (q.length + 1) MAX_QUEUE_SIZE := by
  unfold enqueue
  by_cases hge : q.length ≥ MAX_QUEUE_SIZE
  · have hq : q.length = MAX_QUEUE_SIZE := le_antisymm h hge
    simp only [hge, if_pos, List.length_append, List.length_tail,
      List.length_cons, List.length_nil]
    have hpos : 0 < q.length := by
      rw [hq]; unfold MAX_QUEUE_SIZE; omega
    omega
  · simp only [hge, if_neg, not_false_iff, List.length_append,
      List.length_cons, List.length_nil]
    push_neg at hge
    omega

theorem enqueueAll_length (items : List (String × String))
    (q : List QueuedEvent) (h : q.length ≤ MAX_QUEUE_SIZE) :
    (enqueueAll q items).length = min (q.length + items.length) MAX_QUEUE_SIZE := by
  induction items generalizing q with
  | nil =>
    simp [enqueueAll]
    omega
  | cons x xs ih =>
    have h1 := enqueue_length q x.1 x.2 h
    have h2 : (enqueue q x.1 x.2).length ≤ MAX_QUEUE_SIZE := by
      rw [h1]; omega
    have h3 := ih (enqueue q x.1 x.2) h2
    simp only [enqueueAll, List.foldl_cons] at h3 ⊢
    rw [h3, h1]
    simp only [List.length_cons]
    omega

-- ==================== Drain unfolding lemmas ====================

theorem drainQueue_success (item : QueuedEvent) (rest : List QueuedEvent)
    (p : String) (rs : List TransportResult) :
    drainQueue (item :: rest) (.success p :: rs) =
      ((drainQueue rest rs).1, .sent item :: (drainQueue rest rs).2) := by
  simp [drainQueue, drainStep]

theorem drainQueue_terminal (item : QueuedEvent) (rest : List QueuedEvent)
    (e : TransportError) (rs : List TransportResult)
    (h : isRetryable e = false) :
    drainQueue (item :: rest) (.failure e :: rs) =
      ((drainQueue rest rs).1, .dropped item :: (drainQueue rest rs).2) := by
  simp [drainQueue, drainStep, h]

theorem drainQueue_retry (item : QueuedEvent) (rest : List QueuedEvent)
    (e : TransportError) (rs : List TransportResult)
    (h : isRetryable e = true) :
    drainQueue (item :: rest) (.failure e :: rs) =
      ((drainQueue (bumpRetries item :: rest) rs).1,
        .delayed item (backoffDelay item.retries) ::
          (drainQueue (bumpRetries item :: rest) rs).2) := by
  simp [drainQueue, drainStep, h]

/-- Draining a single event against `n` consecutive retryable failures:
the event stays alone at the front the whole time, its `retries` count
ends at `k + n`, and the observable trace is `n` `delayed` records whose
delays are `backoffDelay k, backoffDelay (k+1), ...`. -/
theorem drainQueue_replicate_failure (e : TransportError)
    (h : isRetryable e = true) (ev d : String) :
    ∀ (n k : Nat),
      drainQueue [⟨ev, d, k⟩] (List.replicate n (.failure e)) =
        ([⟨ev, d, k + n⟩],
          (List.range n).map fun i =>
            .delayed ⟨ev, d, k + i⟩ (backoffDelay (k + i))) := by
  intro n
  induction n with
  | zero => intro k; simp [drainQueue]
  | succ m ih =>
    intro k
    rw [List.replicate_succ, drainQueue_retry _ _ _ _ h]
    have hb : bumpRetries ⟨ev, d, k⟩ = ⟨ev, d, k + 1⟩ := rfl
    rw [hb, ih (k + 1)]
    have hr : List.range (m + 1) = 0 :: (List.range m).map Nat.succ :=
      List.range_succ_eq_map m
    rw [hr]
    simp only [List.map_cons, List.map_map, Nat.add_zero, Prod.mk.injEq,
      List.cons.injEq, and_true, true_and]
    refine ⟨?_, ?_⟩
    · have h1 : k + 1 + m = k + (m + 1) := by omega
      rw [h1]
    · apply List.map_congr_left
      intro i _
      have h2 : k + 1 + i = k + (i + 1) := by omega
      simp [Function.comp, h2, Nat.succ_eq_add_one]

-- ==================== Claim theorems: C3, C4, C5 ====================

/-- C3: the queue length never exceeds the capacity 10,000 under any
sequence of enqueues; an enqueue against a full queue removes exactly the
oldest (front) event before appending; and enqueueing 10,001 events into
an empty queue leaves the length at exactly 10,000. -/
theorem enqueue_capacity_spec :
    (∀ (q : List QueuedEvent) (ev d : String),
        q.length ≤ MAX_QUEUE_SIZE → (enqueue q ev d).length ≤ MAX_QUEUE_SIZE) ∧
    (∀ (q : List QueuedEvent) (ev d : String),
        q.length = MAX_QUEUE_SIZE →
          enqueue q ev d = q.tail ++ [⟨ev, d, 0⟩]) ∧
    (∀ (items : List (String × String)),
        (enqueueAll [] items).length = min items.length MAX_QUEUE_SIZE) ∧
    (∀ (items : List (String × String)),
        items.length = 10001 → (enqueueAll [] items).length = 10000) := by
  refine ⟨?_, ?_, ?_, ?_⟩
  · intro q ev d h
    rw [enqueue_length q ev d h]
    omega
  · intro q ev d h
    unfold enqueue
    rw [if_pos (le_of_eq h.symm)]
  · intro items
    have := enqueueAll_length items [] (by simp)
    simpa using this
  · intro items h
    have := enqueueAll_length items [] (by simp)
    simp only [List.length_nil, Nat.zero_add, h] at this
    rw [this]
    decide

/-- C3 witness: a concrete instance discharging each hypothesis. -/
theorem enqueue_capacity_spec_witness :
    ((enqueue [] "activity" "x").length ≤ MAX_QUEUE_SIZE) ∧
    (∀ (q : List QueuedEvent), q.length = MAX_QUEUE_SIZE →
        enqueue q "a" "b" = q.tail ++ [⟨"a", "b", 0⟩]) ∧
    ((enqueueAll [] [("activity", "x"), ("message", "y")]).length =
        min 2 MAX_QUEUE_SIZE) := by
  refine ⟨?_, ?_, ?_⟩
  · exact enqueue_capacity_spec.1 [] "activity" "x" (by simp)
  · intro q h
    exact enqueue_capacity_spec.2.1 q "a" "b" h
  · exact enqueue_capacity_spec.2.2.1 [("activity", "x"), ("message", "y")]

/-- C4: the backoff delay is the pure function
`min (1000 * 2 ^ retryCount) 30000` of the event's current retry count;
draining one event against `n` consecutive retryable failures produces
exactly the delays `backoffDelay 0, backoffDelay 1, ...`, and the first
seven values are `1000, 2000, 4000, 8000, 16000, 30000, 30000`. -/
theorem backoff_sequence_spec :
    (∀ i : Nat, backoffDelay i = min (1000 * 2 ^ i) 30000) ∧
    (∀ (n : Nat) (ev d : String) (e : TransportError), isRetryable e = true →
        (drainQueue [⟨ev, d, 0⟩] (List.replicate n (.failure e))).2 =
          (List.range n).map fun i =>
            .delayed ⟨ev, d, i⟩ (backoffDelay i)) ∧
    ([backoffDelay 0, backoffDelay 1, backoffDelay 2, backoffDelay 3,
      backoffDelay 4, backoffDelay 5, backoffDelay 6] =
        [1000, 2000, 4000, 8000, 16000, 30000, 30000]) := by
  refine ⟨fun i => rfl, ?_, by decide⟩
  intro n ev d e h
  rw [drainQueue_replicate_failure e h ev d n 0]
  simp

/-- C4 witness: seven consecutive retryable network failures of one event
produce exactly the documented delay sequence. -/
theorem backoff_sequence_spec_witness :
    (drainQueue [⟨"activity", "x", 0⟩]
        (List.replicate 7 (.failure .networkError))).2 =
      [.delayed ⟨"activity", "x", 0⟩ 1000,
       .delayed ⟨"activity", "x", 1⟩ 2000,
       .delayed ⟨"activity", "x", 2⟩ 4000,
       .delayed ⟨"activity", "x", 3⟩ 8000,
       .delayed ⟨"activity", "x", 4⟩ 16000,
       .delayed ⟨"activity", "x", 5⟩ 30000,
       .delayed ⟨"activity", "x", 6⟩ 30000] := by
  rw [backoff_sequence_spec.2.1 7 "activity" "x" .networkError rfl]
  decide

/-- The spec's classification predicate, written from the spec's words:
retryable iff the status code is 429 or at least 500, or the failure is a
network-level failure with no typed API response. -/
def retryableSpec : TransportError → Prop
  | .rovnError statusCode => statusCode = 429 ∨ statusCode ≥ 500
  | .networkError => True

/-- Outcome visible to the caller of `sendEvent`. -/
inductive SendOutcome where
  | payload (p : String)
  | ok
  | raised (e : TransportError)
deriving DecidableEq, Repr

/-- Embeds `sendEvent` (`index.ts` lines 344-360).  `r` is the Transport
outcome the HTTP attempt would produce; the returned `Bool` records
whether Transport was actually called.  Fire-and-forget: enqueue and
return, Transport untouched.  Synchronous: on success return the payload;
on a retryable failure enqueue and return normally; on a terminal failure
re-throw. -/
def sendEvent (fireAndForget : Bool) (q : List QueuedEvent)
    (event : String) (data : String) (r : TransportResult) :
    List QueuedEvent × SendOutcome × Bool :=
  if fireAndForget then
    (enqueue q event data, .ok, false)
  else
    match r with
    | .success p => (q, .payload p, true)
    | .failure e =>
      if isRetryable e then
        (enqueue q event data, .ok, true)
      else
        (q, .raised e, true)

-- ==================== Claim theorems: C1, C5, C6 ====================

/-- C1: in every drain, for the event at the front of the queue: a
successful Transport call removes exactly that event and the loop
continues with the rest (no delay is emitted); a terminal failure removes
exactly that event; a retryable failure leaves the same event at the
front with its retry count incremented by one, emits the backoff delay,
and the continuation drains that same event before any other, preserving
queue order. -/
theorem drain_front_spec (item : QueuedEvent) (rest : List QueuedEvent)
    (rs : List TransportResult) :
    (∀ p : String,
        drainQueue (item :: rest) (.success p :: rs) =
          ((drainQueue rest rs).1, .sent item :: (drainQueue rest rs).2)) ∧
    (∀ e : TransportError, isRetryable e = false →
        drainQueue (item :: rest) (.failure e :: rs) =
          ((drainQueue rest rs).1, .dropped item :: (drainQueue rest rs).2)) ∧
    (∀ e : TransportError, isRetryable e = true →
        drainQueue (item :: rest) (.failure e :: rs) =
          ((drainQueue ({ item with retries := item.retries + 1 } :: rest) rs).1,
            .delayed item (backoffDelay item.retries) ::
              (drainQueue ({ item with retries := item.retries + 1 } :: rest) rs).2)) := by
  refine ⟨fun p => drainQueue_success item rest p rs,
    fun e h => drainQueue_terminal item rest e rs h,
    fun e h => drainQueue_retry item rest e rs h⟩

/-- C1 witness: concrete two-event queue; a 503 failure (retryable)
leaves the bumped first event at the front and it is retried before the
second event; the following 200 removes it; a 400 drops the second. -/
theorem drain_front_spec_witness :
    (drainQueue [⟨"activity", "x", 0⟩, ⟨"message", "y", 0⟩]
        (.success "ok" :: []) =
      (([⟨"message", "y", 0⟩] : List QueuedEvent),
        [.sent ⟨"activity", "x", 0⟩])) ∧
    (drainQueue [⟨"activity", "x", 0⟩, ⟨"message", "y", 0⟩]
        (.failure (.rovnError 503) ::
          .success "ok" :: .failure (.rovnError 400) :: []) =
      (([] : List QueuedEvent),
        [.delayed ⟨"activity", "x", 0⟩ 1000,
         .sent ⟨"activity", "x", 1⟩,
         .dropped ⟨"message", "y", 0⟩])) := by
  constructor
  · rw [(drain_front_spec ⟨"activity", "x", 0⟩ [⟨"message", "y", 0⟩] []).1 "ok"]
    decide
  · rw [(drain_front_spec ⟨"activity", "x", 0⟩ [⟨"message", "y", 0⟩]
      [.success "ok", .failure (.rovnError 400)]).2.2 (.rovnError 503) (by decide)]
    decide

/-- C5: the code's `isRetryable` agrees exactly with the spec's
classification: retryable iff the status code is 429 or at least 500, or
the failure is an untyped network failure; every other typed failure
(in particular every other 4xx) is terminal.  The same function decides
both the Delivery Worker branch (`drainStep`) and the synchronous
submission branch (`sendEvent`). -/
theorem isRetryable_spec :
    (∀ e : TransportError, isRetryable e = true ↔ retryableSpec e) ∧
    (∀ s : Nat, 400 ≤ s → s < 500 → s ≠ 429 →
        isRetryable (.rovnError s) = false) ∧
    (∀ (item : QueuedEvent) (rest : List QueuedEvent) (e : TransportError),
        drainStep item rest (.failure e) =
          (if isRetryable e then
            ({ item with retries := item.retries + 1 } :: rest,
              .delayed item (backoffDelay item.retries))
          else (rest, .dropped item))) ∧
    (∀ (q : List QueuedEvent) (ev d : String) (e : TransportError),
        sendEvent false q ev d (.failure e) =
          (if isRetryable e then (enqueue q ev d, .ok, true)
          else (q, .raised e, true))) := by
  refine ⟨?_, ?_, fun item rest e => rfl, fun q ev d e => rfl⟩
  · intro e
    cases e with
    | rovnError s =>
      simp only [isRetryable, retryableSpec, Bool.or_eq_true, decide_eq_true_eq]
      omega
    | networkError => simp [isRetryable, retryableSpec]
  · intro s h1 h2 h3
    simp only [isRetryable, Bool.or_eq_false_iff, decide_eq_false_iff_not]
    omega

/-- C5 witness: 429 and 503 and network failures are retryable; 400 and
404 are terminal. -/
theorem isRetryable_spec_witness :
    retryableSpec (.rovnError 429) ∧
    retryableSpec (.rovnError 503) ∧
    retryableSpec .networkError ∧
    isRetryable (.rovnError 400) = false ∧
    isRetryable (.rovnError 404) = false := by
  refine ⟨(isRetryable_spec.1 (.rovnError 429)).mp (by decide),
    (isRetryable_spec.1 (.rovnError 503)).mp (by decide),
    (isRetryable_spec.1 .networkError).mp (by decide),
    isRetryable_spec.2.1 400 (by decide) (by decide) (by decide),
    isRetryable_spec.2.1 404 (by decide) (by decide) (by decide)⟩

/-- C6: in synchronous mode, Transport success returns the server payload
with the queue untouched; a retryable failure enqueues the event and
returns normally with no error raised; a terminal failure is propagated
and the event is not enqueued.  In fire-and-forget mode the event is
unconditionally enqueued and Transport is never called. -/
theorem sendEvent_spec (q : List QueuedEvent) (ev d : String) :
    (∀ p : String, sendEvent false q ev d (.success p) = (q, .payload p, true)) ∧
    (∀ e : TransportError, isRetryable e = true →
        sendEvent false q ev d (.failure e) = (enqueue q ev d, .ok, true)) ∧
    (∀ e : TransportError, isRetryable e = false →
        sendEvent false q ev d (.failure e) = (q, .raised e, true)) ∧
    (∀ r : TransportResult, sendEvent true q ev d r = (enqueue q ev d, .ok, false)) := by
  refine ⟨fun p => rfl, ?_, ?_, fun r => rfl⟩
  · intro e h
    simp [sendEvent, h]
  · intro e h
    simp [sendEvent, h]

/-- C6 witness: concrete instances of each branch. -/
theorem sendEvent_spec_witness :
    (sendEvent false [] "activity" "x" (.success "p") =
      ([], .payload "p", true)) ∧
    (sendEvent false [] "activity" "x" (.failure .networkError) =
      ([⟨"activity", "x", 0⟩], .ok, true)) ∧
    (sendEvent false [] "activity" "x" (.failure (.rovnError 400)) =
      ([], .raised (.rovnError 400), true)) ∧
    (sendEvent true [] "activity" "x" (.failure (.rovnError 400)) =
      ([⟨"activity", "x", 0⟩], .ok, false)) := by
  refine ⟨(sendEvent_spec [] "activity" "x").1 "p", ?_, ?_,
    (sendEvent_spec [] "activity" "x").2.2.2 (.failure (.rovnError 400))⟩
  · rw [(sendEvent_spec [] "activity" "x").2.1 .networkError (by decide)]
    decide
  · rw [(sendEvent_spec [] "activity" "x").2.2.1 (.rovnError 400) (by decide)]

-- ==================== Delivery Worker scheduling (C2) ====================

/-- Per-client worker state: the queue, the `flushTimer` handle
(modelled as "a pending `setTimeout(0)` trigger exists"), the `flushing`
guard, and a ghost counter of drain loops currently active (between
`drainQueue`'s entry past its guard and its `finally`). -/
structure WorkerState where
  queue : List QueuedEvent
  flushTimer : Bool
  flushing : Bool
  activeDrains : Nat
deriving DecidableEq, Repr

/-- The freshly constructed client: empty queue, no timer, not flushing. -/
def initWorker : WorkerState :=
  ⟨[], false, false, 0⟩

/-- Embeds `scheduleFlush` (`index.ts` lines 263-269):
`if (this.flushTimer || this.flushing) return;` else arm the timer. -/
def scheduleFlush (s : WorkerState) : WorkerState :=
  if s.flushTimer || s.flushing then s else { s with flushTimer := true }

/-- Entry of `drainQueue` (`index.ts` lines 277-278):
`if (this.flushing) return; this.flushing = true;` — the check and set
are synchronous (no suspension point between them). -/
def enterDrain (s : WorkerState) : WorkerState :=
  if s.flushing then s
  else { s with flushing := true, activeDrains := s.activeDrains + 1 }

/-- Atomic segments of the single-threaded event loop that touch the
worker state. -/
inductive WorkerAction where
  /-- `enqueue` runs: append (with overflow policy) then `scheduleFlush`. -/
  | enqueueEvent (event : String) (data : String)
  /-- The armed `setTimeout(0)` fires: clear `flushTimer`, call `drainQueue`. -/
  | timerFire
  /-- One Transport call inside the active drain completes with `r`. -/
  | drainResult (r : TransportResult)
  /-- The active drain's `while` observes an empty queue and exits;
  `finally` clears `flushing`. -/
  | drainFinish
  /-- `flush()` runs its synchronous prefix: clear the timer; if not
  already flushing and the queue is non-empty, call `drainQueue`. -/
  | flushCall
deriving DecidableEq, Repr

/-- One atomic step of the worker state. -/
def workerStep (s : WorkerState) (a : WorkerAction) : WorkerState :=
  match a with
  | .enqueueEvent ev d => scheduleFlush { s with queue := enqueue s.queue ev d }
  | .timerFire =>
    if s.flushTimer then enterDrain { s with flushTimer := false } else s
  | .drainResult r =>
    if s.flushing then
      match s.queue with
      | [] => s
      | item :: rest => { s with queue := (drainStep item rest r).1 }
    else s
  | .drainFinish =>
    if s.flushing && s.queue.isEmpty then
      { s with flushing := false, activeDrains := s.activeDrains - 1 }
    else s
  | .flushCall =>
    let s1 := { s with flushTimer := false }
    if s1.flushing then s1
    else if s1.queue.isEmpty then s1
    else enterDrain s1

/-- Run the worker from the initial state through a list of actions. -/
def runWorker (acts : List WorkerAction) : WorkerState :=
  acts.foldl workerStep initWorker

/-- The inductive invariant: the ghost drain counter is exactly the
`flushing` flag. -/
def workerInv (s : WorkerState) : Prop :=
  s.activeDrains = if s.flushing then 1 else 0

theorem workerStep_preserves_inv (s : WorkerState) (a : WorkerAction)
    (h : workerInv s) : workerInv (workerStep s a) := by
  obtain ⟨q, ft, fl, ad⟩ := s
  unfold workerInv at h ⊢
  simp only at h
  cases a with
  | enqueueEvent ev d =>
    cases ft <;> cases fl <;> simp_all [workerStep, scheduleFlush]
  | timerFire =>
    cases ft <;> cases fl <;> simp_all [workerStep, enterDrain]
  | drainResult r =>
    cases q <;> cases fl <;> simp_all [workerStep]
  | drainFinish =>
    cases q <;> cases fl <;> simp_all [workerStep]
  | flushCall =>
    cases q <;> cases fl <;> simp_all [workerStep, enterDrain]

theorem runWorker_inv (acts : List WorkerAction) : workerInv (runWorker acts) := by
  suffices h : ∀ (s : WorkerState), workerInv s → workerInv (acts.foldl workerStep s) from
    h initWorker (by simp [workerInv, initWorker])
  induction acts with
  | nil => intro s hs; exact hs
  | cons a rest ih =>
    intro s hs
    exact ih (workerStep s a) (workerStep_preserves_inv s a hs)

/-- C2: along every interleaving of atomic event-loop segments from the
initial client state, at most one drain loop is ever active; an enqueue
never changes the `flushing` guard or the number of active drains, and
arms the trigger timer only when neither a timer is pending nor a drain is
running (idempotent scheduling); and while a drain is running, both drain
entry points (the fired timer and `flush()`'s direct call) leave the state
unchanged except for clearing the timer — the drain loop is never
re-entered. -/
theorem single_drain_spec :
    (∀ acts : List WorkerAction, (runWorker acts).activeDrains ≤ 1) ∧
    (∀ (s : WorkerState) (ev d : String),
        (workerStep s (.enqueueEvent ev d)).flushing = s.flushing ∧
        (workerStep s (.enqueueEvent ev d)).activeDrains = s.activeDrains ∧
        (workerStep s (.enqueueEvent ev d)).flushTimer =
          (s.flushTimer || !s.flushing)) ∧
    (∀ s : WorkerState, s.flushing = true →
        workerStep s .timerFire = { s with flushTimer := false } ∧
        workerStep s .flushCall = { s with flushTimer := false }) := by
  refine ⟨?_, ?_, ?_⟩
  · intro acts
    have h := runWorker_inv acts
    unfold workerInv at h
    rw [h]
    split <;> omega
  · intro s ev d
    simp only [workerStep, scheduleFlush]
    split
    · rename_i hor
      simp only [Bool.or_eq_true] at hor
      refine ⟨rfl, rfl, ?_⟩
      rcases hor with h | h <;> simp [h]
    · rename_i hor
      simp only [Bool.or_eq_true, not_or, Bool.not_eq_true] at hor
      simp [hor.1, hor.2]
  · intro s h
    obtain ⟨q, ft, fl, ad⟩ := s
    simp only at h
    subst h
    constructor
    · cases ft <;> simp [workerStep, enterDrain]
    · cases ft <;> simp [workerStep, enterDrain]

/-- C2 witness: a concrete interleaving — two enqueues, the timer fires,
a second timer-fire and a `flush()` arrive while the drain is mid-flight —
never exceeds one active drain, and the second trigger attempts leave the
drain state untouched. -/
theorem single_drain_spec_witness :
    ((runWorker [.enqueueEvent "activity" "x", .enqueueEvent "message" "y",
        .timerFire, .drainResult (.failure .networkError), .timerFire,
        .flushCall]).activeDrains ≤ 1) ∧
    ((workerStep ⟨[⟨"activity", "x", 0⟩], true, true, 1⟩
        (.enqueueEvent "message" "y")).activeDrains = 1) ∧
    (workerStep ⟨[⟨"activity", "x", 0⟩], true, true, 1⟩ .timerFire =
      ⟨[⟨"activity", "x", 0⟩, ⟨"activity", "x", 0⟩].tail, false, true, 1⟩) := by
  refine ⟨single_drain_spec.1 [.enqueueEvent "activity" "x",
      .enqueueEvent "message" "y", .timerFire,
      .drainResult (.failure .networkError), .timerFire, .flushCall], ?_, ?_⟩
  · rw [(single_drain_spec.2.1 ⟨[⟨"activity", "x", 0⟩], true, true, 1⟩
      "message" "y").2.1]
  · exact (single_drain_spec.2.2 ⟨[⟨"activity", "x", 0⟩], true, true, 1⟩ rfl).1

-- ==================== flush() (C8) ====================

/-- Inputs determining one `flush()` call (`index.ts` lines 410-433):
the client state at call time, the queue contents observed once an
in-progress drain reaches `Idle` (only consulted when `flushing` was
true — the spin-wait's outcome), and the Transport oracle for a drain
started by `flush` itself. -/
structure FlushInput where
  queue : List QueuedEvent
  flushTimer : Bool
  flushing : Bool
  queueAfterWait : List QueuedEvent
  oracle : List TransportResult
deriving DecidableEq, Repr

/-- Result of `flush()`: final queue, the timer state (always cleared),
the number of Transport calls performed by the drain `flush` ran, and
whether a drain was started at all. -/
structure FlushOutput where
  queue : List QueuedEvent
  flushTimer : Bool
  transportCalls : Nat
  startedDrain : Bool
deriving DecidableEq, Repr

/-- Embeds `flush` (`index.ts` lines 410-433): clear any pending
`flushTimer`; if a drain is in progress, spin-wait until it finishes
(`queueAfterWait` is the queue at that point) and, if items remain, drain
again; otherwise drain only when the queue is non-empty.  Each `DrainEvent`
of `drainQueue`'s trace is exactly one Transport call. -/
def flush (i : FlushInput) : FlushOutput :=
  if i.flushing then
    if i.queueAfterWait.length > 0 then
      let r := drainQueue i.queueAfterWait i.oracle
      ⟨r.1, false, r.2.length, true⟩
    else
      ⟨i.queueAfterWait, false, 0, false⟩
  else
    if i.queue.length > 0 then
      let r := drainQueue i.queue i.oracle
      ⟨r.1, false, r.2.length, true⟩
    else
      ⟨i.queue, false, 0, false⟩

/-- C8: `flush()` on an empty queue with no drain in progress resolves
immediately — no Transport call, no drain started; in every case the
pending not-yet-started drain trigger is cancelled; when a drain was in
progress, `flush` waits it out and performs one more full drain exactly
when events remain after the wait. -/
theorem flush_spec (i : FlushInput) :
    (i.flushing = false → i.queue = [] →
        flush i = ⟨[], false, 0, false⟩) ∧
    ((flush i).flushTimer = false) ∧
    (i.flushing = true → i.queueAfterWait = [] →
        flush i = ⟨[], false, 0, false⟩) ∧
    (i.flushing = true → i.queueAfterWait ≠ [] →
        flush i = ⟨(drainQueue i.queueAfterWait i.oracle).1, false,
          (drainQueue i.queueAfterWait i.oracle).2.length, true⟩) ∧
    (i.flushing = false → i.queue ≠ [] →
        flush i = ⟨(drainQueue i.queue i.oracle).1, false,
          (drainQueue i.queue i.oracle).2.length, true⟩) := by
  refine ⟨?_, ?_, ?_, ?_, ?_⟩
  · intro hf hq
    simp [flush, hf, hq]
  · unfold flush
    split
    · split <;> rfl
    · split <;> rfl
  · intro hf hq
    simp [flush, hf, hq]
  · intro hf hq
    have : i.queueAfterWait.length > 0 := List.length_pos.mpr hq
    simp [flush, hf, this]
  · intro hf hq
    have : i.queue.length > 0 := List.length_pos.mpr hq
    simp [flush, hf, this]

/-- C8 witness: empty idle queue → immediate no-op resolution; a pending
trigger is cancelled; a busy flush with one event left after the wait
drains exactly that event with one Transport call. -/
theorem flush_spec_witness :
    (flush ⟨[], true, false, [], []⟩ = ⟨[], false, 0, false⟩) ∧
    (flush ⟨[⟨"activity", "x", 0⟩], true, true, [], []⟩ = ⟨[], false, 0, false⟩) ∧
    (flush ⟨[], false, true, [⟨"message", "y", 0⟩], [.success "ok"]⟩ =
      ⟨[], false, 1, true⟩) := by
  refine ⟨(flush_spec ⟨[], true, false, [], []⟩).1 rfl rfl,
    (flush_spec ⟨[⟨"activity", "x", 0⟩], true, true, [], []⟩).2.2.1 rfl rfl, ?_⟩
  rw [(flush_spec ⟨[], false, true, [⟨"message", "y", 0⟩],
    [.success "ok"]⟩).2.2.2.1 rfl (by decide)]
  decide

-- ==================== Guardrail cache (C9, C10) ====================

/-- Embeds the `Guardrail` record (`index.ts`).  Numeric fields are `Int`
(TS `number`); the fields not read by the SDK's own logic are carried as
opaque strings. -/
structure Guardrail where
  id : String
  agent_id : String
  owner_id : String
  metric : String
  limit_value : Int
  current_value : Int
  window : String
  action : String
  enabled : Bool
deriving DecidableEq, Repr

/-- The `guardrailCache` field: `{ data, cachedAt }` or `null`. -/
structure GuardrailCacheEntry where
  data : List Guardrail
  cachedAt : Nat
deriving DecidableEq, Repr

/-- The staleness test of `getGuardrailRemaining` (`index.ts` line 571):
`!this.guardrailCache || now - this.guardrailCache.cachedAt > GUARDRAIL_CACHE_TTL_MS`.
The subtraction is ℕ-truncated, which coincides with the JS comparison
`now - cachedAt > TTL` for every pair of timestamps (a negative JS
difference and a truncated-to-0 difference both fail the `> TTL` test). -/
def guardrailCacheStale (cache : Option GuardrailCacheEntry) (now : Nat) : Bool :=
  match cache with
  | none => true
  | some c => decide (now - c.cachedAt > GUARDRAIL_CACHE_TTL_MS)

/-- The refresh step of `getGuardrailRemaining` (`index.ts` lines 571-576):
when the cache is stale, perform the Transport GET (`fetch` is its
outcome) and, only if it resolves, execute the assignment
`this.guardrailCache = { data: ..., cachedAt: now }`; a throwing GET
leaves the cache unchanged and the error propagates.  Returns the entry
to read from (or the propagated error) and whether the GET was
performed. -/
def refreshGuardrailCache (cache : Option GuardrailCacheEntry) (now : Nat)
    (fetch : Except TransportError (List Guardrail)) :
    Except TransportError GuardrailCacheEntry × Bool :=
  if guardrailCacheStale cache now then
    match fetch with
    | .error e => (.error e, true)
    | .ok data => (.ok ⟨data, now⟩, true)
  else
    (.ok (cache.getD ⟨[], now⟩), false)

/-- The lookup step of `getGuardrailRemaining` (`index.ts` lines 578-580):
`find` the first guardrail whose `metric` equals the argument, `null` if
absent, else `limit_value - current_value`. -/
def lookupGuardrail (data : List Guardrail) (metric : String) : Option Int :=
  (data.find? (fun g => g.metric == metric)).map
    (fun g => g.limit_value - g.current_value)

/-- Embeds `getGuardrailRemaining` (`index.ts` lines 567-581).  `now` is
`Date.now()`; `fetch` is the outcome the Transport GET would produce if
performed.  Returns the cache after the call, the result propagated to
the caller (`Except.ok none` = `null`, `Except.error` = the re-thrown
Transport failure), and whether the GET was performed. -/
def getGuardrailRemaining (cache : Option GuardrailCacheEntry) (now : Nat)
    (fetch : Except TransportError (List Guardrail)) (metric : String) :
    Option GuardrailCacheEntry × Except TransportError (Option Int) × Bool :=
  match refreshGuardrailCache cache now fetch with
  | (.error e, called) => (cache, .error e, called)
  | (.ok entry, called) => (some entry, .ok (lookupGuardrail entry.data metric), called)

/-- Embeds `invalidateGuardrailCache` (`index.ts` lines 584-586). -/
def invalidateGuardrailCache (_cache : Option GuardrailCacheEntry) :
    Option GuardrailCacheEntry :=
  none

/-- One `getGuardrailRemaining` call of a run: its `Date.now()`, the
outcome the Transport GET would produce if performed, and the metric
argument. -/
structure GuardrailCall where
  now : Nat
  fetch : Except TransportError (List Guardrail)
  metric : String

/-- Run a sequence of `getGuardrailRemaining` calls, threading the cache;
returns the final cache, the number of Transport GETs performed, and the
number of those GETs that succeeded. -/
def runGuardrailCalls (cache : Option GuardrailCacheEntry) :
    List GuardrailCall → Option GuardrailCacheEntry × Nat × Nat
  | [] => (cache, 0, 0)
  | c :: cs =>
    let r := getGuardrailRemaining cache c.now c.fetch c.metric
    let rest := runGuardrailCalls r.1 cs
    (rest.1,
      (if r.2.2 then 1 else 0) + rest.2.1,
      (if r.2.2 && r.2.1.isOk then 1 else 0) + rest.2.2)

theorem guardrailCacheStale_iff (cache : Option GuardrailCacheEntry) (now : Nat) :
    guardrailCacheStale cache now = true ↔
      (cache = none ∨ ∃ c, cache = some c ∧
        now - c.cachedAt > GUARDRAIL_CACHE_TTL_MS) := by
  cases cache with
  | none => simp [guardrailCacheStale]
  | some c => simp [guardrailCacheStale]

/-- The GET is performed exactly when the staleness test fires. -/
theorem getGuardrailRemaining_called (cache : Option GuardrailCacheEntry)
    (now : Nat) (fetch : Except TransportError (List Guardrail)) (metric : String) :
    (getGuardrailRemaining cache now fetch metric).2.2 =
      guardrailCacheStale cache now := by
  unfold getGuardrailRemaining refreshGuardrailCache
  by_cases h : guardrailCacheStale cache now = true
  · rw [h]
    cases fetch <;> rfl
  · rw [Bool.not_eq_true] at h
    rw [h]
    rfl

theorem getGuardrailRemaining_fetch_iff (cache : Option GuardrailCacheEntry)
    (now : Nat) (fetch : Except TransportError (List Guardrail)) (metric : String) :
    (getGuardrailRemaining cache now fetch metric).2.2 = true ↔
      (cache = none ∨ ∃ c, cache = some c ∧
        now - c.cachedAt > GUARDRAIL_CACHE_TTL_MS) := by
  rw [getGuardrailRemaining_called, guardrailCacheStale_iff]

/-- A call that does not perform the GET leaves the cache unchanged. -/
theorem getGuardrailRemaining_hit_cache (cache : Option GuardrailCacheEntry)
    (now : Nat) (fetch : Except TransportError (List Guardrail)) (metric : String)
    (h : (getGuardrailRemaining cache now fetch metric).2.2 = false) :
    (getGuardrailRemaining cache now fetch metric).1 = cache := by
  rw [getGuardrailRemaining_called] at h
  cases cache with
  | none => simp [guardrailCacheStale] at h
  | some c =>
    unfold getGuardrailRemaining refreshGuardrailCache
    rw [h]
    rfl

/-- A performed GET that throws returns the cache unchanged and
propagates the error. -/
theorem getGuardrailRemaining_error (cache : Option GuardrailCacheEntry)
    (now : Nat) (e : TransportError) (metric : String)
    (h : (getGuardrailRemaining cache now (.error e) metric).2.2 = true) :
    getGuardrailRemaining cache now (.error e) metric = (cache, .error e, true) := by
  rw [getGuardrailRemaining_called] at h
  unfold getGuardrailRemaining refreshGuardrailCache
  rw [h]
  rfl

/-- Whether or not the GET is performed, a throwing fetch never changes
the cache. -/
theorem getGuardrailRemaining_error_cache (cache : Option GuardrailCacheEntry)
    (now : Nat) (e : TransportError) (metric : String) :
    (getGuardrailRemaining cache now (.error e) metric).1 = cache := by
  by_cases h : (getGuardrailRemaining cache now (.error e) metric).2.2 = true
  · rw [getGuardrailRemaining_error cache now e metric h]
  · rw [Bool.not_eq_true] at h
    exact getGuardrailRemaining_hit_cache cache now (.error e) metric h

/-- A performed GET that resolves with `data` installs `⟨data, now⟩` and
answers from the freshly fetched list. -/
theorem getGuardrailRemaining_refreshed (cache : Option GuardrailCacheEntry)
    (now : Nat) (data : List Guardrail) (metric : String)
    (h : (getGuardrailRemaining cache now (.ok data) metric).2.2 = true) :
    getGuardrailRemaining cache now (.ok data) metric =
      (some ⟨data, now⟩, .ok (lookupGuardrail data metric), true) := by
  rw [getGuardrailRemaining_called] at h
  unfold getGuardrailRemaining refreshGuardrailCache
  rw [h]
  rfl

/-- On a cache hit the fetch outcome is irrelevant and the value is the
first-match lookup over the cached list. -/
theorem getGuardrailRemaining_result (entry : GuardrailCacheEntry)
    (now : Nat) (fetch : Except TransportError (List Guardrail)) (metric : String)
    (h : now - entry.cachedAt ≤ GUARDRAIL_CACHE_TTL_MS) :
    (getGuardrailRemaining (some entry) now fetch metric).2.1 =
      .ok (lookupGuardrail entry.data metric) := by
  have hle : ¬ (now - entry.cachedAt > GUARDRAIL_CACHE_TTL_MS) := by omega
  have hstale : guardrailCacheStale (some entry) now = false := by
    simp [guardrailCacheStale]
    omega
  unfold getGuardrailRemaining refreshGuardrailCache
  rw [hstale]
  rfl

/-- If the cache holds an entry stamped inside the window `[lo, lo+TTL]`
and every remaining call's `now` lies in that window, no call performs
the GET at all. -/
theorem runGuardrailCalls_no_fetch (lo : Nat) :
    ∀ (cs : List GuardrailCall) (c : GuardrailCacheEntry),
      lo ≤ c.cachedAt →
      (∀ x ∈ cs, x.now ≤ lo + GUARDRAIL_CACHE_TTL_MS) →
      (runGuardrailCalls (some c) cs).2.1 = 0 := by
  intro cs
  induction cs with
  | nil => intro c _ _; rfl
  | cons x xs ih =>
    intro c hlo hwin
    have hx : x.now ≤ lo + GUARDRAIL_CACHE_TTL_MS := hwin x (by simp)
    have hnf : (getGuardrailRemaining (some c) x.now x.fetch x.metric).2.2 = false := by
      rw [Bool.eq_false_iff]
      intro hcontra
      rw [getGuardrailRemaining_fetch_iff] at hcontra
      rcases hcontra with h | ⟨c2, hc2, hgt⟩
      · exact Option.noConfusion h
      · rw [Option.some.injEq] at hc2
        subst hc2
        omega
    have hcache := getGuardrailRemaining_hit_cache (some c) x.now x.fetch x.metric hnf
    simp only [runGuardrailCalls]
    rw [hnf, hcache]
    simp only [Bool.false_eq_true, if_false, Nat.zero_add]
    exact ih c hlo (fun y hy => hwin y (by simp [hy]))

/-- The success counter never exceeds the GET counter. -/
theorem runGuardrailCalls_ok_le :
    ∀ (cs : List GuardrailCall) (cache : Option GuardrailCacheEntry),
      (runGuardrailCalls cache cs).2.2 ≤ (runGuardrailCalls cache cs).2.1 := by
  intro cs
  induction cs with
  | nil => intro cache; simp [runGuardrailCalls]
  | cons x xs ih =>
    intro cache
    simp only [runGuardrailCalls]
    have hrec := ih ((getGuardrailRemaining cache x.now x.fetch x.metric).1)
    by_cases hb : (getGuardrailRemaining cache x.now x.fetch x.metric).2.2 = true
    · rw [hb]
      by_cases ho : (getGuardrailRemaining cache x.now x.fetch x.metric).2.1.isOk = true
      · rw [ho]
        simp only [Bool.and_self, if_true]
        omega
      · rw [Bool.not_eq_true] at ho
        rw [ho]
        simp only [Bool.and_false, Bool.false_eq_true, if_false, if_true]
        omega
    · rw [Bool.not_eq_true] at hb
      rw [hb]
      simp only [Bool.false_and, Bool.false_eq_true, if_false]
      omega

/-- Across any sequence of calls whose `Date.now()` values all lie in one
window of length `GUARDRAIL_CACHE_TTL_MS`, at most one *successful*
Transport GET occurs, whatever the starting cache: only a resolved GET
installs `cachedAt = now`, and from then on every call in the window is a
cache hit.  (Throwing GETs are not bounded this way: they leave the cache
unchanged — see the C9 counterexample.) -/
theorem runGuardrailCalls_window (lo : Nat) :
    ∀ (cs : List GuardrailCall) (cache : Option GuardrailCacheEntry),
      (∀ x ∈ cs, lo ≤ x.now ∧ x.now ≤ lo + GUARDRAIL_CACHE_TTL_MS) →
      (runGuardrailCalls cache cs).2.2 ≤ 1 := by
  intro cs
  induction cs with
  | nil => intro cache _; simp [runGuardrailCalls]
  | cons x xs ih =>
    intro cache hwin
    have hx := hwin x (by simp)
    simp only [runGuardrailCalls]
    by_cases hb : (getGuardrailRemaining cache x.now x.fetch x.metric).2.2 = true
    · cases hf : x.fetch with
      | error e =>
        rw [hf] at hb
        have he := getGuardrailRemaining_error cache x.now e x.metric hb
        rw [he]
        simp only [Except.isOk, Except.toBool, Bool.and_false, Bool.false_eq_true,
          if_false, Nat.zero_add]
        exact ih cache (fun y hy => hwin y (by simp [hy]))
      | ok data =>
        rw [hf] at hb
        have hr := getGuardrailRemaining_refreshed cache x.now data x.metric hb
        rw [hr]
        have h0 : (runGuardrailCalls (some ⟨data, x.now⟩) xs).2.1 = 0 :=
          runGuardrailCalls_no_fetch lo xs ⟨data, x.now⟩ hx.1
            (fun y hy => (hwin y (by simp [hy])).2)
        have hok := runGuardrailCalls_ok_le xs (some ⟨data, x.now⟩)
        rw [h0] at hok
        simp only [Except.isOk, Except.toBool, Bool.and_true, if_true]
        omega
    · rw [Bool.not_eq_true] at hb
      have hcache := getGuardrailRemaining_hit_cache cache x.now x.fetch x.metric hb
      rw [hb, hcache]
      simp only [Bool.false_and, Bool.false_eq_true, if_false, Nat.zero_add]
      exact ih cache (fun y hy => hwin y (by simp [hy]))

/-- C9 counterexample: the claim's "at most one Transport call occurs
across any number of calls within a 60,000 ms window" is false on the
code.  Concrete run from an empty cache: at `now = 1000` the GET is
performed and throws (network error) — the assignment at
`index.ts:572-575` sits after the `await` that threw, so `guardrailCache`
stays empty — and the second call at `now = 1001`, just 1 ms later,
performs a second Transport GET: two GETs inside one window. -/
theorem guardrail_window_counterexample :
    ((getGuardrailRemaining none 1000
        (.error .networkError) "m").2.2 = true) ∧
    ((getGuardrailRemaining none 1000 (.error .networkError) "m").1 = none) ∧
    ((runGuardrailCalls none
        [⟨1000, .error .networkError, "m"⟩, ⟨1001, .ok [], "m"⟩]).2.1 = 2) ∧
    (1001 - 1000 ≤ GUARDRAIL_CACHE_TTL_MS) := by
  refine ⟨rfl, rfl, rfl, by decide⟩

/-- C9 (amended): the Transport GET is performed iff no cache entry
exists or more than 60,000 ms have elapsed since `cachedAt`; at most one
*successful* GET occurs across any number of calls inside one 60,000 ms
window, while a GET that throws leaves the cache unchanged and propagates
its error (so a later call in the same window performs another GET);
after `invalidateGuardrailCache` the next call always fetches; and the
result is `limit_value - current_value` of the first guardrail of the
(possibly just-refreshed) cached list whose metric equals the argument —
`null` exactly when no such guardrail exists — never clamped. -/
theorem guardrail_cache_spec :
    (∀ (cache : Option GuardrailCacheEntry) (now : Nat)
        (fetch : Except TransportError (List Guardrail)) (metric : String),
        (getGuardrailRemaining cache now fetch metric).2.2 = true ↔
          (cache = none ∨ ∃ c, cache = some c ∧
            now - c.cachedAt > GUARDRAIL_CACHE_TTL_MS)) ∧
    (∀ (lo : Nat) (cs : List GuardrailCall) (cache : Option GuardrailCacheEntry),
        (∀ x ∈ cs, lo ≤ x.now ∧ x.now ≤ lo + GUARDRAIL_CACHE_TTL_MS) →
        (runGuardrailCalls cache cs).2.2 ≤ 1) ∧
    (∀ (cache : Option GuardrailCacheEntry) (now : Nat)
        (e : TransportError) (metric : String),
        (getGuardrailRemaining cache now (.error e) metric).1 = cache ∧
        ((getGuardrailRemaining cache now (.error e) metric).2.2 = true →
          (getGuardrailRemaining cache now (.error e) metric).2.1 = .error e)) ∧
    (∀ (cache : Option GuardrailCacheEntry) (now : Nat)
        (fetch : Except TransportError (List Guardrail)) (metric : String),
        (getGuardrailRemaining (invalidateGuardrailCache cache)
          now fetch metric).2.2 = true) ∧
    (∀ (entry : GuardrailCacheEntry) (now : Nat)
        (fetch : Except TransportError (List Guardrail)) (metric : String),
        now - entry.cachedAt ≤ GUARDRAIL_CACHE_TTL_MS →
        (getGuardrailRemaining (some entry) now fetch metric).2.1 =
          .ok ((entry.data.find? (fun g => g.metric == metric)).map
            (fun g => g.limit_value - g.current_value))) ∧
    (∀ (cache : Option GuardrailCacheEntry) (now : Nat)
        (data : List Guardrail) (metric : String),
        (getGuardrailRemaining cache now (.ok data) metric).2.2 = true →
        (getGuardrailRemaining cache now (.ok data) metric).2.1 =
          .ok ((data.find? (fun g => g.metric == metric)).map
            (fun g => g.limit_value - g.current_value))) := by
  refine ⟨getGuardrailRemaining_fetch_iff, runGuardrailCalls_window, ?_, ?_,
    getGuardrailRemaining_result, ?_⟩
  · intro cache now e metric
    refine ⟨getGuardrailRemaining_error_cache cache now e metric, ?_⟩
    intro h
    rw [getGuardrailRemaining_error cache now e metric h]
  · intro cache now fetch metric
    rw [getGuardrailRemaining_called]
    rfl
  · intro cache now data metric h
    rw [getGuardrailRemaining_refreshed cache now data metric h]
    rfl

/-- C9 witness: a fresh cache fetches and computes `100 - 60 = 40`; the
same entry 60,000 ms later is a hit, and a guardrail already over its
limit yields a negative remaining value; a missing metric yields `null`;
a throwing GET on an empty cache leaves it empty and surfaces the error;
after invalidation the next call fetches; three succeeding calls inside
one window score at most one successful GET. -/
theorem guardrail_cache_spec_witness :
    ((getGuardrailRemaining none 1000
        (.ok [⟨"g1", "a1", "o1", "api_calls", 100, 60, "daily", "warn", true⟩])
        "api_calls").2.1 = .ok (some 40)) ∧
    ((getGuardrailRemaining
        (some ⟨[⟨"g1", "a1", "o1", "api_calls", 100, 160, "daily", "warn", true⟩], 1000⟩)
        61000 (.ok []) "api_calls").2.1 = .ok (some (-60))) ∧
    ((getGuardrailRemaining
        (some ⟨[⟨"g1", "a1", "o1", "api_calls", 100, 60, "daily", "warn", true⟩], 1000⟩)
        1500 (.ok []) "tokens").2.1 = .ok none) ∧
    ((getGuardrailRemaining none 500 (.error .networkError) "m").1 = none ∧
      (getGuardrailRemaining none 500 (.error .networkError) "m").2.1 =
        .error .networkError) ∧
    ((getGuardrailRemaining (invalidateGuardrailCache
        (some ⟨[], 1000⟩)) 1001 (.ok []) "m").2.2 = true) ∧
    ((runGuardrailCalls none
        [⟨1000, .ok [], "m"⟩, ⟨2000, .ok [], "m"⟩, ⟨61000, .ok [], "m"⟩]).2.2 ≤ 1) := by
  refine ⟨?_, ?_, ?_, ?_, ?_, ?_⟩
  · have h := guardrail_cache_spec.2.2.2.2.2 none 1000
      [⟨"g1", "a1", "o1", "api_calls", 100, 60, "daily", "warn", true⟩]
      "api_calls" rfl
    rw [h]
    rfl
  · have h := guardrail_cache_spec.2.2.2.2.1
      ⟨[⟨"g1", "a1", "o1", "api_calls", 100, 160, "daily", "warn", true⟩], 1000⟩
      61000 (.ok []) "api_calls" (by decide)
    rw [h]
    rfl
  · have h := guardrail_cache_spec.2.2.2.2.1
      ⟨[⟨"g1", "a1", "o1", "api_calls", 100, 60, "daily", "warn", true⟩], 1000⟩
      1500 (.ok []) "tokens" (by decide)
    rw [h]
    rfl
  · have h := guardrail_cache_spec.2.2.1 none 500 .networkError "m"
    exact ⟨h.1, h.2 rfl⟩
  · exact guardrail_cache_spec.2.2.2.1 (some ⟨[], 1000⟩) 1001 (.ok []) "m"
  · exact guardrail_cache_spec.2.1 1000
      [⟨1000, .ok [], "m"⟩, ⟨2000, .ok [], "m"⟩, ⟨61000, .ok [], "m"⟩] none (by decide)

/-- `find?` skips a whole block of non-matching entries. -/
theorem find?_append_of_none {α : Type} (p : α → Bool) :
    ∀ (l1 l2 : List α), (∀ x ∈ l1, p x = false) →
      (l1 ++ l2).find? p = l2.find? p := by
  intro l1
  induction l1 with
  | nil => intro l2 _; rfl
  | cons x xs ih =>
    intro l2 h
    have hx : p x = false := h x (by simp)
    simp only [List.cons_append, List.find?_cons, hx]
    exact ih l2 (fun y hy => h y (by simp [hy]))

/-- C10: the cached-list lookup of `getGuardrailRemaining` does not
consult the `enabled` flag: with the cache entry fresh, the result comes
from the first guardrail whose `metric` equals the argument — whatever its
`enabled` value, in particular `false` — and every later entry (matching
or not) is ignored. -/
theorem guardrail_lookup_ignores_enabled (l1 l2 : List Guardrail)
    (g : Guardrail) (metric : String) (now cachedAt : Nat)
    (hfresh : now - cachedAt ≤ GUARDRAIL_CACHE_TTL_MS)
    (h1 : ∀ x ∈ l1, x.metric ≠ metric) (hg : g.metric = metric) :
    (getGuardrailRemaining (some ⟨l1 ++ g :: l2, cachedAt⟩)
        now (.ok []) metric).2.1 =
      .ok (some (g.limit_value - g.current_value)) := by
  rw [getGuardrailRemaining_result ⟨l1 ++ g :: l2, cachedAt⟩ now (.ok []) metric hfresh]
  unfold lookupGuardrail
  dsimp only
  have hskip : (l1 ++ g :: l2).find? (fun x => x.metric == metric) =
      (g :: l2).find? (fun x => x.metric == metric) := by
    apply find?_append_of_none
    intro x hx
    simp only [beq_eq_false_iff_ne, ne_eq]
    exact h1 x hx
  rw [hskip]
  simp only [List.find?_cons]
  rw [show (g.metric == metric) = true by simp [hg]]
  rfl

/-- C10 witness: the first matching guardrail has `enabled = false` and a
later enabled guardrail with the same metric has different values; the
result `10 - 3 = 7` comes from the disabled first entry. -/
theorem guardrail_lookup_ignores_enabled_witness :
    (getGuardrailRemaining
        (some ⟨[⟨"g0", "a1", "o1", "tokens", 5, 1, "daily", "warn", true⟩,
                ⟨"g1", "a1", "o1", "api_calls", 10, 3, "daily", "warn", false⟩,
                ⟨"g2", "a1", "o1", "api_calls", 100, 0, "daily", "warn", true⟩], 1000⟩)
        2000 (.ok []) "api_calls").2.1 = .ok (some 7) := by
  exact guardrail_lookup_ignores_enabled
    [⟨"g0", "a1", "o1", "tokens", 5, 1, "daily", "warn", true⟩]
    [⟨"g2", "a1", "o1", "api_calls", 100, 0, "daily", "warn", true⟩]
    ⟨"g1", "a1", "o1", "api_calls", 10, 3, "daily", "warn", false⟩
    "api_calls" 2000 1000 (by decide) (by decide) rfl

-- ==================== Stream Client (C7) ====================

/-- Where the `doConnect` loop (`index.ts` lines 461-523) currently is:
no `doConnect` running; `fetch` in flight; read loop active; or inside
the `catch` waiting out the fixed 3000 ms reconnect delay. -/
inductive StreamPhase where
  | idle
  | connecting
  | connected
  | waitingReconnect
deriving DecidableEq, Repr

/-- Stream-client state: the loop phase, the `reconnect` option captured
by `connect()`, the current `AbortController`'s aborted flag (reset by
each `new AbortController()` at the top of `doConnect`), a ghost flag
recording that `disconnect()` has been called, and a ghost counter of
connection attempts (`doConnect` entries). -/
structure StreamState where
  phase : StreamPhase
  reconnect : Bool
  aborted : Bool
  everDisconnected : Bool
  attempts : Nat
deriving DecidableEq, Repr

/-- Atomic segments of the stream client's event loop. -/
inductive StreamAction where
  /-- The caller invokes `connect(...)`: `doConnect()` starts, creating a
  fresh controller and issuing the `fetch`. -/
  | connectCall
  /-- The in-flight `fetch` resolves OK with a body: enter the read loop. -/
  | fetchOk
  /-- The in-flight `fetch` rejects or the handshake is non-2xx; the
  error is an `AbortError` exactly when the controller was aborted. -/
  | connectFail
  /-- `reader.read()` rejects; `AbortError` exactly when aborted. -/
  | readFail
  /-- `reader.read()` returns `done`: the `while` breaks and `doConnect`
  returns. -/
  | streamEnd
  /-- The 3000 ms reconnect timer fires: `doConnect()` runs again with a
  fresh controller. -/
  | timerFire
  /-- The caller invokes `disconnect()`:
  `this.sseController?.abort(); this.sseController = null`. -/
  | disconnectCall
deriving DecidableEq, Repr

/-- One atomic step of the stream client (from `doConnect`'s body: the
`catch` returns on `AbortError`, otherwise fires `onDisconnect` and — iff
`reconnect` — sleeps 3000 ms and recurses; a `done` read exits with no
reconnect). -/
def streamStep (s : StreamState) (a : StreamAction) : StreamState :=
  match a with
  | .connectCall =>
    if s.phase = .idle then
      { s with
          phase := .connecting
          aborted := false
          attempts := s.attempts + 1 }
    else s
  | .fetchOk =>
    if s.phase = .connecting ∧ s.aborted = false then
      { s with phase := .connected }
    else s
  | .connectFail =>
    if s.phase = .connecting then
      if s.aborted then { s with phase := .idle }
      else if s.reconnect then { s with phase := .waitingReconnect }
      else { s with phase := .idle }
    else s
  | .readFail =>
    if s.phase = .connected then
      if s.aborted then { s with phase := .idle }
      else if s.reconnect then { s with phase := .waitingReconnect }
      else { s with phase := .idle }
    else s
  | .streamEnd =>
    if s.phase = .connected ∧ s.aborted = false then
      { s with phase := .idle }
    else s
  | .timerFire =>
    if s.phase = .waitingReconnect then
      { s with
          phase := .connecting
          aborted := false
          attempts := s.attempts + 1 }
    else s
  | .disconnectCall =>
    { s with aborted := true, everDisconnected := true }

/-- The state before `connect()` is first called. -/
def initStream (reconnect : Bool) : StreamState :=
  ⟨.idle, reconnect, false, false, 0⟩

/-- Run the stream client through a list of actions. -/
def runStream (reconnect : Bool) (acts : List StreamAction) : StreamState :=
  acts.foldl streamStep (initStream reconnect)

/-- C7 counterexample: the claim "no reconnect attempt fires after
`disconnect()` even if a reconnect delay was pending when it was called"
is false on the code.  Concrete run with `reconnect = true`: `connect()`,
the fetch fails (network error, not an abort), the client enters the
3000 ms reconnect wait, the caller invokes `disconnect()` — and when the
pending timer fires, `doConnect()` runs again: the attempt counter rises
from 1 to 2 after `disconnect()`, and the client is connecting again. -/
theorem stream_disconnect_counterexample :
    (runStream true [.connectCall, .connectFail, .disconnectCall]).everDisconnected
        = true ∧
    (runStream true [.connectCall, .connectFail, .disconnectCall]).phase
        = .waitingReconnect ∧
    (runStream true [.connectCall, .connectFail, .disconnectCall]).attempts = 1 ∧
    (runStream true [.connectCall, .connectFail, .disconnectCall,
        .timerFire]).attempts = 2 ∧
    (runStream true [.connectCall, .connectFail, .disconnectCall,
        .timerFire]).phase = .connecting := by
  decide

/-- C7 (amended): `disconnect()` aborts the current controller, so an
in-flight fetch or read fails with `AbortError` and the `catch` returns
without entering the reconnect logic — the loop lands in `idle`, from
which no action except a fresh `connect()` call ever initiates another
attempt.  But `disconnect()` during a pending reconnect delay does not
cancel the timer: the phase stays `waitingReconnect` and the timer will
fire one more `doConnect`. -/
theorem stream_disconnect_amended (s : StreamState) :
    (s.phase = .connected → s.aborted = true →
        streamStep s .readFail = { s with phase := .idle }) ∧
    (s.phase = .connecting → s.aborted = true →
        streamStep s .connectFail = { s with phase := .idle }) ∧
    ((streamStep s .disconnectCall).aborted = true) ∧
    (s.phase = .idle → ∀ a : StreamAction, a ≠ .connectCall →
        (streamStep s a).attempts = s.attempts ∧
        (streamStep s a).phase = .idle) ∧
    (s.phase = .waitingReconnect →
        (streamStep s .disconnectCall).phase = .waitingReconnect) := by
  obtain ⟨ph, rc, ab, ed, at_⟩ := s
  refine ⟨?_, ?_, rfl, ?_, ?_⟩
  · intro hp ha
    simp only at hp ha
    subst hp; subst ha
    simp [streamStep]
  · intro hp ha
    simp only at hp ha
    subst hp; subst ha
    simp [streamStep]
  · intro hp a hne
    simp only at hp
    subst hp
    cases a <;> simp_all [streamStep]
  · intro hp
    simp only at hp
    subst hp
    simp [streamStep]

/-- C7 amended witness: an abort delivered mid-read exits to `idle`; from
`idle`, a firing timer starts nothing; disconnect during the reconnect
wait leaves the phase `waitingReconnect`. -/
theorem stream_disconnect_amended_witness :
    (streamStep ⟨.connected, true, true, true, 1⟩ .readFail =
      ⟨.idle, true, true, true, 1⟩) ∧
    ((streamStep ⟨.idle, true, true, true, 1⟩ .timerFire).attempts = 1 ∧
      (streamStep ⟨.idle, true, true, true, 1⟩ .timerFire).phase = .idle) ∧
    ((streamStep ⟨.waitingReconnect, true, false, false, 1⟩
        .disconnectCall).phase = .waitingReconnect) := by
  refine ⟨(stream_disconnect_amended ⟨.connected, true, true, true, 1⟩).1 rfl rfl,
    (stream_disconnect_amended ⟨.idle, true, true, true, 1⟩).2.2.2.1 rfl
      .timerFire (by decide),
    (stream_disconnect_amended ⟨.waitingReconnect, true, false, false, 1⟩).2.2.2.2
      rfl⟩

end Rovn
